import Mathlib

/-!
Verification of the ID3v2 tag reader/writer of the mp3tag-conv repository
(src/services/id3Service.ts), shallowly embedded over byte lists.

Bytes are modelled as natural numbers below 256 in a `List Nat`; machine
arithmetic of the JavaScript source (32-bit signed shifts and ors) is made
explicit where it matters.  The platform text decoders (TextDecoder for
shift-jis / utf-16 / non-fatal utf-8) are not part of the repository; they
enter as abstract function parameters, except for strict UTF-8 decoding,
which is implemented concretely because the reader's branching depends on
its success.
-/

namespace Mp3Tag

/-- Byte lookup. The JS source reads `bytes[i]`, which yields `undefined`
out of range; every comparison and arithmetic use in the source treats that
`undefined` exactly as the value 0 would be treated on the paths that can
reach it (all out-of-range reads funnel into an empty content slice or a
failed identifier comparison against nonzero ASCII bytes), so out-of-range
reads are modelled as 0. -/
def byteAt (bytes : List Nat) (i : Nat) : Nat := bytes.getD i 0

/-- JavaScript ToInt32 of a natural number (the result of `<<` and `|`). -/
def toInt32 (n : Nat) : Int :=
  if n % 4294967296 < 2147483648 then ((n % 4294967296 : Nat) : Int)
  else ((n % 4294967296 : Nat) : Int) - 4294967296

/-- Clamped end index of `Uint8Array.prototype.slice (start, end)`:
a negative `end` counts from the end of the array, a too-large one is
clamped to the length. -/
def jsSliceEnd (len : Nat) (e : Int) : Nat :=
  if e < 0 then (e + len).toNat else min e.toNat len

/-- Whether a byte is a UTF-8 continuation byte (0x80-0xBF). -/
def contByte (c : Nat) : Bool := 128 ≤ c && c ≤ 191

/-- Strict (WHATWG, fatal) UTF-8 decoding, fuel-driven so that it computes
by kernel reduction.  Overlong encodings, surrogates and values above
U+10FFFF are rejected, as TextDecoder with fatal set does. -/
def utf8Go : Nat → List Nat → Option (List Char)
  | _, [] => some []
  | 0, _ :: _ => none
  | fuel+1, b :: rest =>
    if b ≤ 127 then
      (utf8Go fuel rest).map (fun cs => Char.ofNat b :: cs)
    else if 194 ≤ b && b ≤ 223 then
      match rest with
      | c1 :: rest1 =>
        if contByte c1 then
          (utf8Go fuel rest1).map
            (fun cs => Char.ofNat ((b - 192) * 64 + (c1 - 128)) :: cs)
        else none
      | [] => none
    else if 224 ≤ b && b ≤ 239 then
      match rest with
      | c1 :: c2 :: rest2 =>
        let lo1 := if b = 224 then 160 else 128
        let hi1 := if b = 237 then 159 else 191
        if lo1 ≤ c1 && c1 ≤ hi1 && contByte c2 then
          (utf8Go fuel rest2).map
            (fun cs =>
              Char.ofNat ((b - 224) * 4096 + (c1 - 128) * 64 + (c2 - 128)) :: cs)
        else none
      | _ => none
    else if 240 ≤ b && b ≤ 244 then
      match rest with
      | c1 :: c2 :: c3 :: rest3 =>
        let lo1 := if b = 240 then 144 else 128
        let hi1 := if b = 244 then 143 else 191
        if lo1 ≤ c1 && c1 ≤ hi1 && contByte c2 && contByte c3 then
          (utf8Go fuel rest3).map
            (fun cs =>
              Char.ofNat ((b - 240) * 262144 + (c1 - 128) * 4096 +
                (c2 - 128) * 64 + (c3 - 128)) :: cs)
        else none
      | _ => none
    else none

/-- Strict UTF-8 decoding of a byte list; none on any malformed sequence. -/
def utf8Decode (l : List Nat) : Option String :=
  (utf8Go l.length l).map fun cs => ⟨cs⟩

/-- The helper of src/services/id3Service.ts lines 11-19: a fatal
TextDecoder succeeds exactly when the bytes are well-formed UTF-8. -/
def isLikelyUtf8 (l : List Nat) : Bool := (utf8Decode l).isSome

/-- The character class of the JavaScript string `trim` method
(WhiteSpace and LineTerminator code points). -/
def jsWhitespace (c : Char) : Bool :=
  c = ' ' || c = '\t' || c = '\n' || c = '\u000B' || c = '\u000C' ||
  c = '\r' || c = '\u00A0' || c = '\u1680' ||
  ('\u2000' ≤ c && c ≤ '\u200A') || c = '\u2028' || c = '\u2029' ||
  c = '\u202F' || c = '\u205F' || c = '\u3000' || c = '\uFEFF'

/-- JavaScript String.prototype.trim. -/
def jsTrim (s : String) : String :=
  ⟨((s.toList.dropWhile jsWhitespace).reverse.dropWhile jsWhitespace).reverse⟩

/-- The source's `.replace(/\0/g, '')`: remove every NUL character. -/
def stripNul (s : String) : String :=
  ⟨s.toList.filter (fun c => c ≠ Char.ofNat 0)⟩

/-- Post-decode cleanup applied by every decode path of `findFrame`:
strip NUL padding, then trim surrounding whitespace. -/
def cleanStr (s : String) : String := jsTrim (stripNul s)

/-- Control characters the reader's junk test looks for:
U+0000-U+0008, U+000B-U+000C, U+000E-U+001F (id3Service.ts line 73). -/
def ctrlJunkChar (c : Char) : Bool :=
  c ≤ '\u0008' || c = '\u000B' || c = '\u000C' ||
  ('\u000E' ≤ c && c ≤ '\u001F')

/-- The junk test on a decoded string: empty, or containing one of the
control characters above. -/
def junkStr (s : String) : Bool := s.isEmpty || s.toList.any ctrlJunkChar

/-- The source's `isJunk`: a missing frame (null) is junk, otherwise the
string test applies. -/
def isJunkOpt : Option String → Bool
  | none => true
  | some s => junkStr s

/-- Modelled from the spec: the platform TextDecoder instances used by the
reader are not part of the repository.  `utf16` stands for
TextDecoder('utf-16') (UTF-16 with BOM handling, per the spec), `utf8Std`
for the non-fatal TextDecoder('utf-8'); both may fail (the source wraps
them in try/catch), `sjis` stands for the non-fatal
TextDecoder('shift-jis'), which never throws. -/
structure Decoders where
  utf16 : List Nat → Option String
  utf8Std : List Nat → Option String
  sjis : List Nat → String

/-- The `new TextEncoder().encode(frameId)` of the source: ASCII bytes of
the identifier (all identifiers used are 4-character ASCII). -/
def frameIdBytes (fid : String) : List Nat := fid.toList.map Char.toNat

/-- The match test of the scan loop: the four bytes at offsets
i..i+3 equal the identifier bytes. -/
def frameMatchAt (bytes idb : List Nat) (i : Nat) : Bool :=
  decide (idb = [byteAt bytes i, byteAt bytes (i+1),
                 byteAt bytes (i+2), byteAt bytes (i+3)])

/-- First offset in [10, min (length, 10000)) whose four bytes match the
identifier — the bounded linear scan of id3Service.ts line 38. -/
def findFirstMatch (bytes idb : List Nat) : Option Nat :=
  (List.range' 10 (min bytes.length 10000 - 10)).find? (frameMatchAt bytes idb)

/-- The declared frame size (id3Service.ts line 40):
`(bytes[i+4] << 24) | (bytes[i+5] << 16) | (bytes[i+6] << 8) | bytes[i+7]`,
a SIGNED 32-bit value in JavaScript. For byte values the pieces occupy
disjoint bits, so the int32 of their sum is the value of the expression. -/
def frameSizeAt (bytes : List Nat) (i : Nat) : Int :=
  toInt32 (byteAt bytes (i+4) * 16777216 + byteAt bytes (i+5) * 65536 +
    byteAt bytes (i+6) * 256 + byteAt bytes (i+7))

/-- The encoding indicator byte, read at offset i+10 (line 41). -/
def frameEncodingAt (bytes : List Nat) (i : Nat) : Nat := byteAt bytes (i+10)

/-- The content slice `bytes.slice(i + 11, i + 10 + size)` (line 42),
with the clamping slice semantics of Uint8Array. -/
def frameContentAt (bytes : List Nat) (i : Nat) : List Nat :=
  (bytes.take (jsSliceEnd bytes.length
    ((((i+10) : Nat) : Int) + frameSizeAt bytes i))).drop (i+11)

/-- The decode of one matched frame body (id3Service.ts lines 44-62):
empty content is absent; indicator 0 tries strict UTF-8 and falls back to
Shift-JIS; any other indicator uses the utf-16 decoder (for 1 and 2) or
the standard utf-8 decoder, with a thrown failure caught as null. The
non-fatal utf-8 decode on the indicator-0 path agrees with the strict
decode whenever the strict decode succeeds, which is the only case in
which it is reached. -/
def decodeContentBytes (D : Decoders) (enc : Nat) (content : List Nat) :
    Option String :=
  if content.length = 0 then none
  else if enc = 0 then
    match utf8Decode content with
    | some s => some (cleanStr s)
    | none => some (cleanStr (D.sjis content))
  else
    (if enc = 1 ∨ enc = 2 then D.utf16 content else D.utf8Std content).map
      cleanStr

/-- Decode the frame whose identifier matched at offset i. -/
def decodeFrameAt (D : Decoders) (bytes : List Nat) (i : Nat) :
    Option String :=
  decodeContentBytes D (frameEncodingAt bytes i) (frameContentAt bytes i)

/-- The source's `findFrame`: the scan returns from inside the loop at the
first identifier match, whatever that frame decodes to. -/
def findFrame (D : Decoders) (bytes : List Nat) (fid : String) :
    Option String :=
  (findFirstMatch bytes (frameIdBytes fid)).bind (decodeFrameAt D bytes)

/-- The diagnostic classification of types.ts. -/
inductive Encoding where
  | UTF8
  | ShiftJIS
  | Unknown
deriving DecidableEq, Repr

/-- The record the reader produces (AudioMetadata with every field
resolved, called ResolvedMetadata by the spec). -/
structure ResolvedMetadata where
  title : String
  artist : String
  album : String
  originalEncoding : Encoding
deriving DecidableEq, Repr

/-- The default-title computation `file.name.replace(/\.[^/.]+$/, "")`:
drop a final dot followed by one or more characters none of which is a dot
or a slash; otherwise leave the name unchanged. -/
def stripExt (name : String) : String :=
  let rev := name.toList.reverse
  let ext := rev.takeWhile (fun c => c ≠ '.' ∧ c ≠ '/')
  if ext ≠ [] ∧ (rev.drop ext.length).headD ' ' = '.' then
    ⟨name.toList.take (name.toList.length - ext.length - 1)⟩
  else name

/-- The default album `folderHint || "不明なアルバム"`: the JavaScript
or-operator falls through to the placeholder when the hint is absent OR the
empty string (empty strings are falsy). -/
def albumDefault (folderHint : Option String) : String :=
  match folderHint with
  | some h => if h.isEmpty then "不明なアルバム" else h
  | none => "不明なアルバム"

/-- The magic test `bytes[0] === 0x49 && bytes[1] === 0x44 && bytes[2] === 0x33`. -/
def hasId3Magic (bytes : List Nat) : Bool :=
  byteAt bytes 0 == 73 && byteAt bytes 1 == 68 && byteAt bytes 2 == 51

/-- The tag reader, id3Service.ts lines 26-86: filename/folder defaults,
an optional scan of the three text frames when the ID3 magic is present,
and the junk guard before each assignment. -/
def parseMetadata (D : Decoders) (bytes : List Nat) (fileName : String)
    (folderHint : Option String) : ResolvedMetadata :=
  let t0 := stripExt fileName
  let ar0 := "不明なアーティスト"
  let al0 := albumDefault folderHint
  if hasId3Magic bytes then
    let t := findFrame D bytes "TIT2"
    let ar := findFrame D bytes "TPE1"
    let al := findFrame D bytes "TALB"
    { title := if isJunkOpt t then t0 else t.getD t0
      artist := if isJunkOpt ar then ar0 else ar.getD ar0
      album := if isJunkOpt al then al0 else al.getD al0
      originalEncoding := Encoding.Unknown }
  else
    { title := t0, artist := ar0, album := al0,
      originalEncoding := Encoding.Unknown }

/-! The exception-channel mirror of the reader.  The only operations of
parseMetadata that can throw in the source are the text decodes; every one
of them is wrapped in try/catch (inside isLikelyUtf8, and around the
standard-decoder call).  Here the potentially-throwing decoders return an
Except value; the mirror shows that no error value ever escapes. -/

/-- Modelled from the spec: the platform decoders with their exception
channel explicit (an error value stands for a thrown exception). -/
structure DecodersE where
  utf16E : List Nat → Except String String
  utf8StdE : List Nat → Except String String
  sjisE : List Nat → String

/-- Discard the exception channel: catching a thrown decode as null. -/
def exOpt (e : Except String String) : Option String :=
  match e with
  | Except.ok s => some s
  | Except.error _ => none

/-- The total decoders obtained from the throwing ones by a try/catch at
each call site, as the source does. -/
def toDecoders (D : DecodersE) : Decoders :=
  { utf16 := fun c => exOpt (D.utf16E c)
    utf8Std := fun c => exOpt (D.utf8StdE c)
    sjis := D.sjisE }

/-- Frame-body decode with the exception channel explicit: the indicator-0
path catches the fatal UTF-8 decode inside isLikelyUtf8, the other paths
catch the standard decoder's failure and return null. -/
def decodeContentBytesE (D : DecodersE) (enc : Nat) (content : List Nat) :
    Except String (Option String) :=
  if content.length = 0 then Except.ok none
  else if enc = 0 then
    match utf8Decode content with
    | some s => Except.ok (some (cleanStr s))
    | none => Except.ok (some (cleanStr (D.sjisE content)))
  else
    match (if enc = 1 ∨ enc = 2 then D.utf16E content else D.utf8StdE content) with
    | Except.ok s => Except.ok (some (cleanStr s))
    | Except.error _ => Except.ok none

/-- findFrame with the exception channel explicit. -/
def findFrameE (D : DecodersE) (bytes : List Nat) (fid : String) :
    Except String (Option String) :=
  match findFirstMatch bytes (frameIdBytes fid) with
  | some i => decodeContentBytesE D (frameEncodingAt bytes i) (frameContentAt bytes i)
  | none => Except.ok none

/-- parseMetadata with the exception channel explicit: an error from any
of the three frame lookups would propagate out of the function. -/
def parseMetadataE (D : DecodersE) (bytes : List Nat) (fileName : String)
    (folderHint : Option String) : Except String ResolvedMetadata :=
  let t0 := stripExt fileName
  let ar0 := "不明なアーティスト"
  let al0 := albumDefault folderHint
  if hasId3Magic bytes then
    match findFrameE D bytes "TIT2", findFrameE D bytes "TPE1",
          findFrameE D bytes "TALB" with
    | Except.ok t, Except.ok ar, Except.ok al =>
      Except.ok
        { title := if isJunkOpt t then t0 else t.getD t0
          artist := if isJunkOpt ar then ar0 else ar.getD ar0
          album := if isJunkOpt al then al0 else al.getD al0
          originalEncoding := Encoding.Unknown }
    | Except.error e, _, _ => Except.error e
    | _, Except.error e, _ => Except.error e
    | _, _, Except.error e => Except.error e
  else
    Except.ok
      { title := t0, artist := ar0, album := al0,
        originalEncoding := Encoding.Unknown }

/-! The tag writer (id3Service.ts lines 127-148). -/

/-- The payload-boundary size read of getAudioDataOnly, line 131:
`(bytes[6] << 21) | (bytes[7] << 14) | (bytes[8] << 7) | bytes[9]`.
For arbitrary byte values the shifted pieces can overlap, so the
JavaScript bitwise or is modelled as Nat.lor (all pieces stay below
2^31, so the int32 semantics never produces a negative value here). -/
def ssDecodeBytes (a b c d : Nat) : Nat :=
  a <<< 21 ||| b <<< 14 ||| c <<< 7 ||| d

/-- getAudioDataOnly, lines 127-135: strip the tag (10-byte header plus
the synchsafe size) when the ID3 magic is present, else keep the whole
buffer.  `ArrayBuffer.slice(offset)` clamps like List.drop. -/
def getAudioDataOnly (bytes : List Nat) : List Nat :=
  if hasId3Magic bytes then
    bytes.drop (ssDecodeBytes (byteAt bytes 6) (byteAt bytes 7)
      (byteAt bytes 8) (byteAt bytes 9) + 10)
  else bytes

/-- The writer's input record, types.ts AudioMetadata: three optional
strings plus the diagnostic encoding tag. -/
structure AudioMetadata where
  title : Option String
  artist : Option String
  album : Option String
  originalEncoding : Encoding
deriving DecidableEq, Repr

/-- JavaScript truthiness of an optional string: absent and the empty
string are falsy. -/
def truthy : Option String → Bool
  | none => false
  | some s => !s.isEmpty

/-- A frame value as handed to the writer: a plain string (TIT2, TALB) or
a list of strings (TPE1). -/
inductive FrameValue where
  | single (s : String)
  | multi (l : List String)
deriving DecidableEq, Repr

/-- A text frame of the new tag container. -/
structure Frame where
  fid : String
  tval : FrameValue
deriving DecidableEq, Repr

/-- The frames the writer is asked to emit, following the conditional
setFrame calls of fixFileTags (lines 141-143): TIT2 when the title is
truthy, TPE1 with the artist as a single-element list when the artist is
truthy, TALB when the album is truthy. -/
def buildFrames (m : AudioMetadata) : List Frame :=
  (if truthy m.title then [⟨"TIT2", FrameValue.single (m.title.getD "")⟩] else []) ++
  (if truthy m.artist then [⟨"TPE1", FrameValue.multi [m.artist.getD ""]⟩] else []) ++
  (if truthy m.album then [⟨"TALB", FrameValue.single (m.album.getD "")⟩] else [])

/-- Modelled from the spec: the text carried by a frame; the library joins
a list value with a separator, the exact separator is immaterial here. -/
def frameText : FrameValue → String
  | FrameValue.single s => s
  | FrameValue.multi l => String.intercalate "/" l

/-- Modelled from the spec: UTF-16 little-endian code units of one
character (a surrogate pair above U+FFFF). -/
def utf16leChar (c : Char) : List Nat :=
  let n := c.toNat
  if n < 65536 then [n % 256, n / 256]
  else
    let m := n - 65536
    let hi := 55296 + m / 1024
    let lo := 56320 + m % 1024
    [hi % 256, hi / 256, lo % 256, lo / 256]

/-- Modelled from the spec: UTF-16 with a little-endian byte-order mark,
the encoding the writer uses for every text frame. -/
def utf16Bom (s : String) : List Nat :=
  255 :: 254 :: s.toList.flatMap utf16leChar

/-- Big-endian 4-byte encoding of a frame size (ID3v2.3 frame sizes are
plain 32-bit integers). -/
def be32 (n : Nat) : List Nat :=
  [n / 16777216 % 256, n / 65536 % 256, n / 256 % 256, n % 256]

/-- Modelled from the spec: serialization of one ID3v2.3 text frame by the
browser-id3-writer library (absent from the repository): identifier, big-
endian size, two zero flag bytes, then an encoding byte 1 and the UTF-16
text with BOM. -/
def serializeFrame (f : Frame) : List Nat :=
  let content := 1 :: utf16Bom (frameText f.tval)
  frameIdBytes f.fid ++ be32 content.length ++ [0, 0] ++ content

/-- The concatenated frames of the new tag. -/
def tagBody (m : AudioMetadata) : List Nat :=
  (buildFrames m).flatMap serializeFrame

/-- Synchsafe encoding of the tag size: four 7-bit bytes. -/
def synchsafeEnc (n : Nat) : List Nat :=
  [n >>> 21 % 128, n >>> 14 % 128, n >>> 7 % 128, n % 128]

/-- Modelled from the spec: the tag container emitted by addTag — the
"ID3" magic, version 2.3, zero flags, the synchsafe body size, then the
frames. -/
def serializeTag (m : AudioMetadata) : List Nat :=
  73 :: 68 :: 51 :: 3 :: 0 :: 0 :: (synchsafeEnc (tagBody m).length ++ tagBody m)

/-- fixFileTags, lines 137-148: build the new tag and concatenate it with
the original audio payload. -/
def fixFileTags (bytes : List Nat) (m : AudioMetadata) : List Nat :=
  serializeTag m ++ getAudioDataOnly bytes

/-! Concrete inputs used by the counterexamples and the witnesses. -/

/-- Decoders whose abstract components are never consulted on the inputs
they are applied to. -/
def trivDecoders : Decoders :=
  { utf16 := fun _ => none, utf8Std := fun _ => none, sjis := fun _ => "" }

/-- A file with an ID3 header and one TALB frame declaring size 2,
encoding 0, content the single ASCII byte of "X" (valid UTF-8). -/
def c1Bytes : List Nat :=
  [73, 68, 51, 3, 0, 0, 0, 0, 0, 23,
   84, 65, 76, 66, 0, 0, 0, 2, 0, 0, 0, 88]

/-- A file with one TIT2 frame declaring size 1: its content slice is
empty (the declared size covers only the encoding byte). -/
def c3CexBytes : List Nat :=
  [73, 68, 51, 3, 0, 0, 0, 0, 0, 0,
   84, 73, 84, 50, 0, 0, 0, 1, 0, 0, 0]

/-- Decoders for the indicator-0 witness: the Shift-JIS decode of the
two-byte content is the single character of the intended Japanese text. -/
def w3Decoders : Decoders :=
  { utf16 := fun _ => none, utf8Std := fun _ => none, sjis := fun _ => "亜" }

/-- A file with one TIT2 frame, encoding 0 and content the two Shift-JIS
bytes 0x88 0xA0, which are not valid UTF-8. -/
def w3Bytes : List Nat :=
  [73, 68, 51, 3, 0, 0, 0, 0, 0, 0,
   84, 73, 84, 50, 0, 0, 0, 3, 0, 0, 0, 136, 160]

/-- A file whose single TIT2 frame declares size 100 while the buffer ends
two content bytes ("AB") after the encoding byte. -/
def c4Bytes : List Nat :=
  [73, 68, 51, 3, 0, 0, 0, 0, 0, 0,
   84, 73, 84, 50, 0, 0, 0, 100, 0, 0, 0, 65, 66]

/-- A file with one TIT2 frame whose decoded content is the control
character U+0001 (valid UTF-8, junk by the control-character test). -/
def w5Bytes : List Nat :=
  [73, 68, 51, 3, 0, 0, 0, 0, 0, 0,
   84, 73, 84, 50, 0, 0, 0, 2, 0, 0, 0, 1]

/-- Decoders matching the platform on empty input: the utf-16 and utf-8
TextDecoders decode an empty buffer to the empty string without throwing. -/
def c7Decoders : Decoders :=
  { utf16 := fun _ => some "", utf8Std := fun _ => some "", sjis := fun _ => "" }

/-- A file with one TIT2 frame declaring size 1 and indicator byte 1: the
content slice is empty. -/
def c7CexBytes : List Nat :=
  [73, 68, 51, 3, 0, 0, 0, 0, 0, 0,
   84, 73, 84, 50, 0, 0, 0, 1, 0, 0, 1]

/-- Decoders for the indicator-1 witness. -/
def w7Decoders : Decoders :=
  { utf16 := fun _ => some "ab", utf8Std := fun _ => none, sjis := fun _ => "" }

/-- A file with one TIT2 frame, indicator byte 1 and two content bytes. -/
def w7Bytes : List Nat :=
  [73, 68, 51, 3, 0, 0, 0, 0, 0, 0,
   84, 73, 84, 50, 0, 0, 0, 3, 0, 0, 1, 65, 0]

/-! Shared helper lemmas. -/

theorem mem_if_singleton {α} {c : Prop} [Decidable c] {x f : α}
    (h : f ∈ (if c then [x] else [])) : f = x := by
  split at h
  · simpa using h
  · simp at h

theorem decodeContentBytesE_ok (D : DecodersE) (enc : Nat) (content : List Nat) :
    decodeContentBytesE D enc content =
      Except.ok (decodeContentBytes (toDecoders D) enc content) := by
  unfold decodeContentBytesE decodeContentBytes
  by_cases h0 : content.length = 0
  · simp [h0]
  · by_cases he : enc = 0
    · simp only [h0, he, if_false, if_true, ite_true, ite_false, if_neg, if_pos]
      cases hu : utf8Decode content <;> simp [h0, hu, toDecoders]
    · by_cases h12 : enc = 1 ∨ enc = 2
      · cases hx : D.utf16E content <;> simp [h0, he, h12, hx, toDecoders, exOpt]
      · cases hx : D.utf8StdE content <;> simp [h0, he, h12, hx, toDecoders, exOpt]

theorem findFrameE_ok (D : DecodersE) (bytes : List Nat) (fid : String) :
    findFrameE D bytes fid = Except.ok (findFrame (toDecoders D) bytes fid) := by
  unfold findFrameE findFrame
  cases h : findFirstMatch bytes (frameIdBytes fid) <;>
    simp [h, decodeContentBytesE_ok, decodeFrameAt]

/-! Claim theorems. -/

/-- C10: on every input the reader reports originalEncoding Unknown; both
return paths of parseMetadata carry the literal Unknown tag, whatever
decoding path produced the fields. -/
theorem parseMetadata_encoding_unknown (D : Decoders) (bytes : List Nat)
    (name : String) (hint : Option String) :
    (parseMetadata D bytes name hint).originalEncoding = Encoding.Unknown := by
  simp only [parseMetadata]
  split <;> rfl

/-- C6: without the ID3 magic the reader returns exactly the defaults
(title from the filename, the fixed artist placeholder, the folder hint if
it is a non-empty string else the fixed album placeholder, encoding
Unknown), and the writer's payload extraction is the identity. -/
theorem noMagic_defaults (D : Decoders) (bytes : List Nat) (name : String)
    (hint : Option String) (h : hasId3Magic bytes = false) :
    parseMetadata D bytes name hint =
      { title := stripExt name, artist := "不明なアーティスト",
        album := albumDefault hint, originalEncoding := Encoding.Unknown } ∧
    getAudioDataOnly bytes = bytes := by
  constructor
  · simp [parseMetadata, h]
  · simp [getAudioDataOnly, h]

theorem noMagic_defaults_witness :
    hasId3Magic [0, 1, 2] = false ∧
    (parseMetadata trivDecoders [0, 1, 2] "a.mp3" none =
      { title := stripExt "a.mp3", artist := "不明なアーティスト",
        album := albumDefault none, originalEncoding := Encoding.Unknown } ∧
     getAudioDataOnly [0, 1, 2] = [0, 1, 2]) :=
  ⟨by decide, noMagic_defaults trivDecoders [0, 1, 2] "a.mp3" none (by decide)⟩

/-- C5: a decoded frame string that is empty or contains one of the
control characters U+0000-U+0008, U+000B-U+000C, U+000E-U+001F is
discarded, and the corresponding field keeps its default. -/
theorem junk_keeps_default (D : Decoders) (bytes : List Nat) (name : String)
    (hint : Option String) :
    (∀ s, findFrame D bytes "TIT2" = some s → junkStr s = true →
      (parseMetadata D bytes name hint).title = stripExt name) ∧
    (∀ s, findFrame D bytes "TPE1" = some s → junkStr s = true →
      (parseMetadata D bytes name hint).artist = "不明なアーティスト") ∧
    (∀ s, findFrame D bytes "TALB" = some s → junkStr s = true →
      (parseMetadata D bytes name hint).album = albumDefault hint) := by
  refine ⟨fun s hs hj => ?_, fun s hs hj => ?_, fun s hs hj => ?_⟩ <;>
    by_cases hm : hasId3Magic bytes = true <;>
    simp [parseMetadata, hm, hs, isJunkOpt, hj]

theorem junk_keeps_default_witness :
    findFrame trivDecoders w5Bytes "TIT2" = some "\u0001" ∧
    junkStr "\u0001" = true ∧
    (parseMetadata trivDecoders w5Bytes "x.mp3" none).title = stripExt "x.mp3" :=
  ⟨by decide, by decide,
   (junk_keeps_default trivDecoders w5Bytes "x.mp3" none).1 "\u0001"
     (by decide) (by decide)⟩

/-- C8: parseMetadata never lets an exception escape: with the decoders'
exception channel explicit, the mirror parseMetadataE returns ok on every
input, with the value of the total parseMetadata. -/
theorem parseMetadataE_ok (D : DecodersE) (bytes : List Nat) (name : String)
    (hint : Option String) :
    parseMetadataE D bytes name hint =
      Except.ok (parseMetadata (toDecoders D) bytes name hint) := by
  unfold parseMetadataE parseMetadata
  by_cases hm : hasId3Magic bytes = true <;> simp [hm, findFrameE_ok]

/-- C1 counterexample: a file carrying a valid, non-junk TALB frame
("X") together with the non-empty folder hint "Hint" resolves album to
the decoded TALB value, not to the hint — the claim that a non-empty
folderHint always wins fails on the code. -/
theorem hint_not_always_album :
    (parseMetadata trivDecoders c1Bytes "song.mp3" (some "Hint")).album = "X" ∧
    (parseMetadata trivDecoders c1Bytes "song.mp3" (some "Hint")).album ≠ "Hint" := by
  decide

/-- C1 amended: a non-empty folderHint is the album only as a default —
it is overridden by a decoded TALB frame whenever one is found and passes
the junk test; when the TALB frame is absent or junk (or there is no ID3
magic at all), the hint is returned. -/
theorem album_hint_default (D : Decoders) (bytes : List Nat) (name : String)
    (hint : String) (h : hint ≠ "") :
    (parseMetadata D bytes name (some hint)).album =
      if hasId3Magic bytes = true ∧ isJunkOpt (findFrame D bytes "TALB") = false
      then (findFrame D bytes "TALB").getD (albumDefault (some hint))
      else hint := by
  have hae : albumDefault (some hint) = hint := by
    have : hint.isEmpty = false := by
      cases hh : hint.isEmpty
      · rfl
      · exact absurd ((String.isEmpty_iff hint).1 hh) h
    simp [albumDefault, this]
  by_cases hm : hasId3Magic bytes = true
  · by_cases hj : isJunkOpt (findFrame D bytes "TALB") = true
    · simp [parseMetadata, hm, hj, hae]
    · have hj' : isJunkOpt (findFrame D bytes "TALB") = false := by
        revert hj; cases isJunkOpt (findFrame D bytes "TALB") <;> simp
      simp [parseMetadata, hm, hj', hae]
  · simp [parseMetadata, hm, hae]

theorem album_hint_default_witness :
    "Hint" ≠ "" ∧
    (parseMetadata trivDecoders [] "a" (some "Hint")).album =
      (if hasId3Magic ([] : List Nat) = true ∧
          isJunkOpt (findFrame trivDecoders [] "TALB") = false
       then (findFrame trivDecoders [] "TALB").getD (albumDefault (some "Hint"))
       else "Hint") :=
  ⟨by decide, album_hint_default trivDecoders [] "a" "Hint" (by decide)⟩

/-- C3 counterexample: a matched TIT2 frame with indicator byte 0 whose
content slice is empty — the strict UTF-8 decode of those content bytes
succeeds (with the empty string), yet the reader returns null rather than
the cleaned UTF-8 decoding. -/
theorem indicator0_empty_content :
    findFirstMatch c3CexBytes (frameIdBytes "TIT2") = some 10 ∧
    frameEncodingAt c3CexBytes 10 = 0 ∧
    utf8Decode (frameContentAt c3CexBytes 10) = some "" ∧
    findFrame trivDecoders c3CexBytes "TIT2" ≠ some (cleanStr "") := by
  decide

/-- C3 amended: for a matched frame with indicator byte 0 and a NON-EMPTY
content slice, the reader returns the strict-UTF-8 decoding when it
succeeds and the Shift-JIS decoding otherwise, NUL-stripped and trimmed in
both cases; a frame with empty content is treated as absent before any
decoding. -/
theorem findFrame_indicator0 (D : Decoders) (bytes : List Nat) (fid : String)
    (i : Nat) (hm : findFirstMatch bytes (frameIdBytes fid) = some i)
    (hc : frameContentAt bytes i ≠ [])
    (he : frameEncodingAt bytes i = 0) :
    findFrame D bytes fid = some (cleanStr
      (match utf8Decode (frameContentAt bytes i) with
       | some s => s
       | none => D.sjis (frameContentAt bytes i))) := by
  unfold findFrame
  rw [hm]
  show decodeFrameAt D bytes i = _
  unfold decodeFrameAt decodeContentBytes
  rw [he]
  have hlen : ¬ (frameContentAt bytes i).length = 0 := by
    simpa [List.length_eq_zero] using hc
  rw [if_neg hlen, if_pos rfl]
  cases hu : utf8Decode (frameContentAt bytes i) <;> simp [hu]

theorem findFrame_indicator0_witness :
    findFirstMatch w3Bytes (frameIdBytes "TIT2") = some 10 ∧
    frameContentAt w3Bytes 10 ≠ [] ∧
    frameEncodingAt w3Bytes 10 = 0 ∧
    findFrame w3Decoders w3Bytes "TIT2" = some (cleanStr
      (match utf8Decode (frameContentAt w3Bytes 10) with
       | some s => s
       | none => w3Decoders.sjis (frameContentAt w3Bytes 10))) :=
  ⟨by decide, by decide, by decide,
   findFrame_indicator0 w3Decoders w3Bytes "TIT2" 10 (by decide) (by decide)
     (by decide)⟩

/-- C4 counterexample: the file c4Bytes is 23 bytes long while its single
TIT2 frame declares size 100, so the content range runs far past the end
of the buffer; the reader does NOT treat the frame as not found — it
decodes the two truncated content bytes and the title becomes "AB"
instead of falling back to the filename default. -/
theorem overrun_frame_used :
    frameSizeAt c4Bytes 10 = 100 ∧ c4Bytes.length = 23 ∧
    findFirstMatch c4Bytes (frameIdBytes "TIT2") = some 10 ∧
    (parseMetadata trivDecoders c4Bytes "x.mp3" none).title = "AB" ∧
    (parseMetadata trivDecoders c4Bytes "x.mp3" none).title ≠ stripExt "x.mp3" := by
  decide

/-- C4 amended: a frame whose declared size reaches past the end of the
buffer raises no error, but it is not treated as missing either: the
content is clamped to the end of the buffer and that partial content is
decoded and used like any other; the frame counts as not found only when
the clamped content is empty. -/
theorem decodeFrameAt_overrun (D : Decoders) (bytes : List Nat) (i : Nat)
    (h : (bytes.length : Int) ≤ ((i + 10 : Nat) : Int) + frameSizeAt bytes i) :
    decodeFrameAt D bytes i =
      decodeContentBytes D (frameEncodingAt bytes i) (bytes.drop (i + 11)) ∧
    (bytes.drop (i + 11) = [] → decodeFrameAt D bytes i = none) := by
  have hcontent : frameContentAt bytes i = bytes.drop (i + 11) := by
    unfold frameContentAt
    have he : jsSliceEnd bytes.length
        (((i + 10 : Nat) : Int) + frameSizeAt bytes i) = bytes.length := by
      unfold jsSliceEnd
      rw [if_neg (by omega)]
      have hle : bytes.length ≤ (((i + 10 : Nat) : Int) + frameSizeAt bytes i).toNat := by
        omega
      exact Nat.min_eq_right hle
    rw [he, List.take_length]
  refine ⟨?_, fun hnil => ?_⟩
  · unfold decodeFrameAt
    rw [hcontent]
  · unfold decodeFrameAt
    rw [hcontent, hnil]
    rfl

theorem decodeFrameAt_overrun_witness :
    ((c4Bytes.length : Int) ≤ ((10 + 10 : Nat) : Int) + frameSizeAt c4Bytes 10) ∧
    (decodeFrameAt trivDecoders c4Bytes 10 =
      decodeContentBytes trivDecoders (frameEncodingAt c4Bytes 10)
        (c4Bytes.drop (10 + 11)) ∧
     (c4Bytes.drop (10 + 11) = [] → decodeFrameAt trivDecoders c4Bytes 10 = none)) :=
  ⟨by decide, decodeFrameAt_overrun trivDecoders c4Bytes 10 (by decide)⟩

/-- C7 counterexample: a matched TIT2 frame with indicator byte 1 whose
content slice is empty — the platform utf-16 decoder decodes the empty
buffer to the empty string without failing, yet the reader returns null
(frame absent) without consulting the decoder, so the result is not the
UTF-16 decoding of the content. -/
theorem indicator1_empty_content :
    findFirstMatch c7CexBytes (frameIdBytes "TIT2") = some 10 ∧
    frameEncodingAt c7CexBytes 10 = 1 ∧
    findFrame c7Decoders c7CexBytes "TIT2" ≠
      Option.map cleanStr (c7Decoders.utf16 (frameContentAt c7CexBytes 10)) := by
  decide

/-- C7 amended: for a matched frame with NON-EMPTY content slice, the
reader hands the content to the utf-16 decoder when the indicator byte is
1 or 2 and to the standard utf-8 decoder when it is 3, cleaning the
result; a decoder failure becomes frame-absent (none) through the caught
exception, never a crash; a frame with empty content is treated as absent
before any decoding. -/
theorem findFrame_indicator123 (D : Decoders) (bytes : List Nat) (fid : String)
    (i : Nat) (hm : findFirstMatch bytes (frameIdBytes fid) = some i)
    (hc : frameContentAt bytes i ≠ []) :
    (frameEncodingAt bytes i = 1 ∨ frameEncodingAt bytes i = 2 →
      findFrame D bytes fid =
        Option.map cleanStr (D.utf16 (frameContentAt bytes i))) ∧
    (frameEncodingAt bytes i = 3 →
      findFrame D bytes fid =
        Option.map cleanStr (D.utf8Std (frameContentAt bytes i))) := by
  have hlen : ¬ (frameContentAt bytes i).length = 0 := by
    simpa [List.length_eq_zero] using hc
  constructor
  · intro h12
    unfold findFrame
    rw [hm]
    show decodeFrameAt D bytes i = _
    unfold decodeFrameAt decodeContentBytes
    rw [if_neg hlen, if_neg (by rcases h12 with h | h <;> omega), if_pos h12]
  · intro h3
    unfold findFrame
    rw [hm]
    show decodeFrameAt D bytes i = _
    unfold decodeFrameAt decodeContentBytes
    rw [if_neg hlen, if_neg (by omega), if_neg (by omega)]

theorem findFrame_indicator123_witness :
    findFirstMatch w7Bytes (frameIdBytes "TIT2") = some 10 ∧
    frameContentAt w7Bytes 10 ≠ [] ∧
    findFrame w7Decoders w7Bytes "TIT2" =
      Option.map cleanStr (w7Decoders.utf16 (frameContentAt w7Bytes 10)) :=
  ⟨by decide, by decide,
   (findFrame_indicator123 w7Decoders w7Bytes "TIT2" 10 (by decide)
     (by decide)).1 (Or.inl (by decide))⟩

/-- C9: the writer's tag contains a TIT2 frame exactly when the title is
truthy, a TPE1 frame (carrying the artist as a single-element list)
exactly when the artist is truthy, and a TALB frame exactly when the album
is truthy; in particular no frame at all is emitted for an absent or
empty field. -/
theorem buildFrames_spec (m : AudioMetadata) :
    ((buildFrames m).any fun f => f.fid == "TIT2") = truthy m.title ∧
    ((buildFrames m).any fun f => f.fid == "TPE1") = truthy m.artist ∧
    ((buildFrames m).any fun f => f.fid == "TALB") = truthy m.album ∧
    ∀ f ∈ buildFrames m, f.fid = "TPE1" →
      f.tval = FrameValue.multi [m.artist.getD ""] := by
  refine ⟨?_, ?_, ?_, ?_⟩
  · cases ht : truthy m.title <;> cases ha : truthy m.artist <;>
      cases hal : truthy m.album <;> simp [buildFrames, ht, ha, hal]
  · cases ht : truthy m.title <;> cases ha : truthy m.artist <;>
      cases hal : truthy m.album <;> simp [buildFrames, ht, ha, hal]
  · cases ht : truthy m.title <;> cases ha : truthy m.artist <;>
      cases hal : truthy m.album <;> simp [buildFrames, ht, ha, hal]
  · intro f hf hfid
    unfold buildFrames at hf
    rcases List.mem_append.1 hf with h12 | h3
    · rcases List.mem_append.1 h12 with h1 | h2
      · rw [mem_if_singleton h1] at hfid
        exact absurd (show ("TIT2" : String) = "TPE1" from hfid) (by decide)
      · rw [mem_if_singleton h2]
    · rw [mem_if_singleton h3] at hfid
      exact absurd (show ("TALB" : String) = "TPE1" from hfid) (by decide)

theorem buildFrames_spec_witness :
    ((buildFrames ⟨some "T", none, some "", Encoding.Unknown⟩).any
        fun f => f.fid == "TIT2") = truthy (some "T") ∧
    ((buildFrames ⟨some "T", none, some "", Encoding.Unknown⟩).any
        fun f => f.fid == "TPE1") = truthy none ∧
    ((buildFrames ⟨some "T", none, some "", Encoding.Unknown⟩).any
        fun f => f.fid == "TALB") = truthy (some "") :=
  ⟨(buildFrames_spec ⟨some "T", none, some "", Encoding.Unknown⟩).1,
   (buildFrames_spec ⟨some "T", none, some "", Encoding.Unknown⟩).2.1,
   (buildFrames_spec ⟨some "T", none, some "", Encoding.Unknown⟩).2.2.1⟩

/-- Synchsafe round-trip used by C2: decoding the four encoded 7-bit
bytes with the reader's shift-and-or formula recovers any size below
2^28. -/
theorem ssDecode_synchsafe (n : Nat) (h : n < 268435456) :
    ssDecodeBytes (n >>> 21 % 128) (n >>> 14 % 128) (n >>> 7 % 128) (n % 128) = n := by
  have h128 : (128 : Nat) = 2 ^ 7 := by norm_num
  apply Nat.eq_of_testBit_eq
  intro i
  simp only [ssDecodeBytes, Nat.testBit_lor, Nat.testBit_shiftLeft, h128,
    Nat.testBit_mod_two_pow, Nat.testBit_shiftRight]
  by_cases h21 : 21 ≤ i
  · by_cases h28 : i < 28
    · simp only [ge_iff_le, eq_true h21, eq_true (by omega : 14 ≤ i),
        eq_true (by omega : 7 ≤ i), eq_true (by omega : i - 21 < 7),
        (by omega : 21 + (i - 21) = i), eq_false (by omega : ¬ i - 14 < 7),
        eq_false (by omega : ¬ i - 7 < 7), eq_false (by omega : ¬ i < 7),
        decide_True, decide_False, Bool.false_and, Bool.and_false,
        Bool.or_false, Bool.false_or, Bool.true_and]
    · have hn : n < 2 ^ i :=
        lt_of_lt_of_le (by omega : n < 2 ^ 28)
          (Nat.pow_le_pow_right (by norm_num) (by omega))
      simp only [ge_iff_le, eq_false (by omega : ¬ i - 21 < 7),
        eq_false (by omega : ¬ i - 14 < 7), eq_false (by omega : ¬ i - 7 < 7),
        eq_false (by omega : ¬ i < 7), decide_False, Bool.false_and,
        Bool.and_false, Bool.or_false, Bool.false_or,
        Nat.testBit_lt_two_pow hn]
  · by_cases h14 : 14 ≤ i
    · simp only [ge_iff_le, eq_false h21, eq_true h14,
        eq_true (by omega : 7 ≤ i), eq_true (by omega : i - 14 < 7),
        (by omega : 14 + (i - 14) = i), eq_false (by omega : ¬ i - 7 < 7),
        eq_false (by omega : ¬ i < 7), decide_True, decide_False,
        Bool.false_and, Bool.and_false, Bool.or_false, Bool.false_or,
        Bool.true_and]
    · by_cases h7 : 7 ≤ i
      · simp only [ge_iff_le, eq_false h21, eq_false h14, eq_true h7,
          eq_true (by omega : i - 7 < 7), (by omega : 7 + (i - 7) = i),
          eq_false (by omega : ¬ i < 7), decide_True, decide_False,
          Bool.false_and, Bool.and_false, Bool.or_false, Bool.false_or,
          Bool.true_and]
      · simp only [ge_iff_le, eq_false h21, eq_false h14, eq_false h7,
          eq_true (by omega : i < 7), decide_True, decide_False,
          Bool.false_and, Bool.or_false, Bool.false_or, Bool.true_and]

/-- The payload extraction applied to a freshly serialized tag followed by
an arbitrary payload returns that payload. -/
theorem getAudio_serializeTag (m : AudioMetadata) (P : List Nat)
    (h : (tagBody m).length < 268435456) :
    getAudioDataOnly (serializeTag m ++ P) = P := by
  have hmagic : hasId3Magic (serializeTag m ++ P) = true := rfl
  have h6 : byteAt (serializeTag m ++ P) 6 = (tagBody m).length >>> 21 % 128 := rfl
  have h7 : byteAt (serializeTag m ++ P) 7 = (tagBody m).length >>> 14 % 128 := rfl
  have h8 : byteAt (serializeTag m ++ P) 8 = (tagBody m).length >>> 7 % 128 := rfl
  have h9 : byteAt (serializeTag m ++ P) 9 = (tagBody m).length % 128 := rfl
  have hlen : (serializeTag m).length = (tagBody m).length + 10 := by
    simp [serializeTag, synchsafeEnc]
  unfold getAudioDataOnly
  rw [if_pos hmagic, h6, h7, h8, h9, ssDecode_synchsafe _ h]
  exact List.drop_left' (by omega)

/-- C2: the audio payload of the writer's output — delimited by the same
ID3-magic plus synchsafe-size rule in input and output — is byte-identical
to the input's audio payload (the synchsafe size of the fresh tag must
represent its body length, i.e. the body is below 2^28 bytes, which every
three-text-frame tag satisfies). -/
theorem fixFileTags_payload (bytes : List Nat) (m : AudioMetadata)
    (h : (tagBody m).length < 268435456) :
    getAudioDataOnly (fixFileTags bytes m) = getAudioDataOnly bytes := by
  unfold fixFileTags
  exact getAudio_serializeTag m (getAudioDataOnly bytes) h

theorem fixFileTags_payload_witness :
    (tagBody ⟨some "T", some "A", some "L", Encoding.Unknown⟩).length < 268435456 ∧
    getAudioDataOnly
        (fixFileTags [73, 68, 51, 3, 0, 0, 0, 0, 0, 3, 1, 2, 3, 9, 9]
          ⟨some "T", some "A", some "L", Encoding.Unknown⟩) =
      getAudioDataOnly [73, 68, 51, 3, 0, 0, 0, 0, 0, 3, 1, 2, 3, 9, 9] :=
  ⟨by decide,
   fixFileTags_payload [73, 68, 51, 3, 0, 0, 0, 0, 0, 3, 1, 2, 3, 9, 9]
     ⟨some "T", some "A", some "L", Encoding.Unknown⟩ (by decide)⟩

end Mp3Tag
